import Mathlib

/-!
Verification of the user-account subsystem of a small e-commerce backend
(Next.js API routes backed by mongoose). The definitions below are a shallow
embedding of `src/models/user.ts`, `src/controllers/user.ts` and
`src/lib/catchAsync.ts`; the helpers from the repository's `lib/` module
(`setCookie`, `checkAuth`, the expiry constants) are not part of the sources
and are modelled from the specification where needed.

Modelling conventions:
- MongoDB documents become a `UserRecord` structure; the collection becomes a
  `Store` holding a list of records plus a fresh-id counter.
- Stateful database operations take a `Store` and return `Store × Except ...`:
  mutations performed before a thrown error persist, exactly as in the real
  service where the database outlives the failed request.
- bcrypt hashing is modelled as an injective tagged encoding of
  (rounds, salt, plaintext); `bcrypt.compare` re-derives the plaintext slot.
  The salt is threaded in as an explicit entropy parameter.
- JavaScript string truthiness (`!s` / `s && t`) is modelled explicitly:
  absent (`none`) and empty strings are falsy.
-/

set_option autoImplicit false

namespace NextEcommerce

/-- JavaScript whitespace test used by `String.prototype.trim` (restricted to
the ASCII whitespace that can occur in our inputs). -/
def isJsSpace (c : Char) : Bool :=
  c = ' ' || c = '\t' || c = '\n' || c = '\r'

/-- Model of `String.prototype.trim` (the mongoose `trim: true` setter). -/
def jsTrim (s : String) : String :=
  String.mk (((s.data.dropWhile isJsSpace).reverse.dropWhile isJsSpace).reverse)

/-- JavaScript truthiness of an optional string field: `undefined` and the
empty string are falsy. -/
def jsTruthy : Option String → Bool
  | none => false
  | some s => s ≠ ""

/-- Split a character list at every occurrence of `sep`, keeping empty
segments, like JavaScript `String.prototype.split` on a one-character
separator. -/
def splitOnChar (sep : Char) : List Char → List (List Char)
  | [] => [[]]
  | c :: cs =>
    let r := splitOnChar sep cs
    if c = sep then [] :: r
    else
      match r with
      | [] => [[c]]
      | g :: gs => (c :: g) :: gs

/-- Rejoin segments with `sep`, the inverse of `splitOnChar`. -/
def joinWith (sep : Char) : List (List Char) → List Char
  | [] => []
  | [g] => g
  | g :: gs => g ++ sep :: joinWith sep gs

/-! Regular expressions, by Brzozowski derivatives, to embed the email
pattern `/^\w+([\.-]?\w+)*@\w+([\.-]?\w+)*(\.\w{2,3})+$/` of the schema. -/

/-- Regular expressions over characters, with character classes given by a
decidable predicate. -/
inductive Regex where
  | emp
  | eps
  | cls (p : Char → Bool)
  | cat (r s : Regex)
  | alt (r s : Regex)
  | star (r : Regex)

/-- Whether a regex accepts the empty string. -/
def Regex.nullable : Regex → Bool
  | .emp => false
  | .eps => true
  | .cls _ => false
  | .cat r s => r.nullable && s.nullable
  | .alt r s => r.nullable || s.nullable
  | .star _ => true

/-- Brzozowski derivative of a regex by one character. -/
def Regex.deriv : Regex → Char → Regex
  | .emp, _ => .emp
  | .eps, _ => .emp
  | .cls p, c => if p c then .eps else .emp
  | .cat r s, c =>
    if r.nullable then .alt (.cat (r.deriv c) s) (s.deriv c)
    else .cat (r.deriv c) s
  | .alt r s, c => .alt (r.deriv c) (s.deriv c)
  | .star r, c => .cat (r.deriv c) (.star r)

/-- Anchored match of a regex against a character list. -/
def Regex.matchList : Regex → List Char → Bool
  | r, [] => r.nullable
  | r, c :: cs => (r.deriv c).matchList cs

/-- Anchored match of a regex against a string (the source regex is anchored
with `^ ... $`). -/
def Regex.matchString (r : Regex) (s : String) : Bool :=
  r.matchList s.data

/-- One-or-more repetition. -/
def rPlus (r : Regex) : Regex := .cat r (.star r)

/-- Zero-or-one repetition. -/
def rOpt (r : Regex) : Regex := .alt r .eps

/-- A single literal character. -/
def rChar (c : Char) : Regex := .cls (fun x => x = c)

/-- The `\w` character class: ASCII letters, digits and underscore. -/
def isWordChar (c : Char) : Bool :=
  c.isAlpha || c.isDigit || c = '_'

/-- The `[\.-]` character class of the email regex. -/
def isDotDash (c : Char) : Bool := c = '.' || c = '-'

/-- The fragment `\w+([\.-]?\w+)*` of the email regex. -/
def wordRun : Regex :=
  .cat (rPlus (.cls isWordChar)) (.star (.cat (rOpt (.cls isDotDash)) (rPlus (.cls isWordChar))))

/-- The fragment `\.\w{2,3}` of the email regex. -/
def tldPart : Regex :=
  .cat (rChar '.') (.cat (.cls isWordChar) (.cat (.cls isWordChar) (rOpt (.cls isWordChar))))

/-- The full anchored email pattern of `userSchema.email.match`:
`^\w+([\.-]?\w+)*@\w+([\.-]?\w+)*(\.\w{2,3})+$`. -/
def emailRegex : Regex :=
  .cat wordRun (.cat (rChar '@') (.cat wordRun (rPlus tldPart)))

/-! The user data model (`userSchema` of `src/models/user.ts`). -/

/-- The role enum of `interfaces.UserRole`: its values, as stored. -/
def userRoleValues : List String := ["user", "admin"]

/-- A persisted user document. `password` holds the stored value of the
`password` path (the bcrypt hash after a save); `confirmPassword` is the
transient confirmation path (`select: false`, cleared by the pre-save hook).
Timestamps come from `timestamps: true`. -/
structure UserRecord where
  _id : Nat
  name : String
  email : String
  password : String
  confirmPassword : String
  role : String
  avatar : String
  createdAt : Nat
  updatedAt : Nat
deriving DecidableEq, Repr

/-- The user collection: the persisted records plus a fresh-id source. -/
structure Store where
  users : List UserRecord
  nextId : Nat
deriving DecidableEq, Repr

/-- Raw request-body fields consumed by `User.create({...req.body})`. -/
structure UserInput where
  name : String
  email : String
  password : String
  confirmPassword : String
  role : Option String := none
  avatar : Option String := none
deriving DecidableEq, Repr

/-- A document about to be saved: the record contents plus whether the
`password` path is modified (`this.isModified('password')`). -/
structure UserDoc where
  record : UserRecord
  modifiedPassword : Bool
deriving DecidableEq, Repr

/-! Field validators of `userSchema`, with their per-field messages. -/

/-- Validator for `name`: required, and `val.split(' ')` must have truthy
entries at indices 0 and 1 (at least two space-separated words). Returns the
failure message, if any. -/
def validateName (name : String) : Option String :=
  if name = "" then some "Name field must be required!"
  else
    let arr := (splitOnChar ' ' name.data).map String.mk
    if arr.getD 0 "" ≠ "" && arr.getD 1 "" ≠ "" then none
    else some "Name contains at least 2 words!"

/-- Validator for `email`: required, and must match `emailRegex`. -/
def validateEmail (email : String) : Option String :=
  if email = "" then some "Email field must be required!"
  else if emailRegex.matchString email then none
  else some "Invalid email!"

/-- Validator for `password`: required, `minlength: 6` (checked on the
plaintext at save time, before hashing). -/
def validatePassword (password : String) : Option String :=
  if password = "" then some "Password field must be required!"
  else if password.length < 6 then
    some "Password is shorter than the minimum allowed length (6)."
  else none

/-- Validator for `confirmPassword`: required, and must equal the current
value of the `password` path. -/
def validateConfirmPassword (confirmPassword password : String) : Option String :=
  if confirmPassword = "" then some "Confirm password field must be required!"
  else if confirmPassword = password then none
  else some "Password and confirm password does not match!"

/-- Validator for `role`: enum membership in `userRoleValues`. -/
def validateRole (role : String) : Option String :=
  if userRoleValues.contains role then none
  else some "Role is either: user, admin"

/-- Tag an optional validation message with its field name. -/
def optErr (field : String) (o : Option String) : List (String × String) :=
  match o with
  | some m => [(field, m)]
  | none => []

/-- Run every schema validator on a document, collecting the per-field
messages (empty list means the document is valid). -/
def validateDoc (u : UserRecord) : List (String × String) :=
  optErr "name" (validateName u.name) ++
  optErr "email" (validateEmail u.email) ++
  optErr "password" (validatePassword u.password) ++
  optErr "confirmPassword" (validateConfirmPassword u.confirmPassword u.password) ++
  optErr "role" (validateRole u.role)

/-- Build the in-memory document for `User.create`: trim setters apply to the
trimmed string paths, `role` defaults to `user`, `avatar` to the placeholder
path, and `timestamps: true` stamps both timestamps with the current time. -/
def buildDoc (id now : Nat) (inp : UserInput) : UserRecord :=
  { _id := id
    name := jsTrim inp.name
    email := jsTrim inp.email
    password := jsTrim inp.password
    confirmPassword := jsTrim inp.confirmPassword
    role := inp.role.getD "user"
    avatar := inp.avatar.getD "/img/user/default.jpg"
    createdAt := now
    updatedAt := now }

/-! The password hasher (`bcryptjs`), modelled as a tagged encoding. -/

/-- Model of `bcrypt.hash(plain, salt)` at cost `rounds`: an injective tagged
encoding of the rounds, the salt drawn by `bcrypt.genSalt`, and the plaintext.
The salt is supplied by the caller as an entropy parameter. -/
def bcryptHash (rounds salt : Nat) (plain : String) : String :=
  "$2a$" ++ toString rounds ++ "$" ++ toString salt ++ "$" ++ plain

/-- Model of `bcrypt.compare(password, userPassword)`: re-derive the plaintext
slot of a hash produced by `bcryptHash` and compare; anything that is not such
a hash verifies against nothing. -/
def bcryptCompare (password userPassword : String) : Bool :=
  match splitOnChar '$' userPassword.data with
  | [] :: ['2', 'a'] :: _rounds :: _salt :: rest =>
    rest ≠ [] && joinWith '$' rest = password.data
  | _ => false

/-! Errors. `http` models a thrown `createHttpError(status, message)`;
`validation` models a mongoose `ValidationError` with per-field messages;
`duplicateKey` models the MongoDB unique-index rejection (E11000); `jwtError`
models a `jsonwebtoken` verification error carrying its `name`. -/

/-- An error thrown by the service. -/
inductive AppError where
  | http (statusCode : Nat) (message : String)
  | validation (errors : List (String × String))
  | duplicateKey (field : String)
  | jwtError (name : String)
deriving DecidableEq, Repr

/-- A signed session token: the payload `{id}`, the key it was signed with,
and its absolute expiry (`now + DAY_EXPIRE` days, in seconds). -/
structure Token where
  payloadId : Nat
  secret : String
  expiresAt : Nat
deriving DecidableEq, Repr

/-- Process-wide configuration read from the environment: `SECRET_KEY` (absent
when the variable is unset), and the `DAY_EXPIRE` / `EXPIRE_TIME` constants of
`lib` (token lifetime in days, cookie expiry timestamp). -/
structure Env where
  secretKey : Option String
  dayExpire : Nat
  expireTime : Int
deriving DecidableEq, Repr

/-! Store operations (`src/models/user.ts`). -/

/-- The `userSchema.pre('save')` hook: when the `password` path is modified,
replace it with its bcrypt hash at cost 12 under a fresh salt and blank out
`confirmPassword`; otherwise leave the document untouched. -/
def preSaveHook (salt : Nat) (d : UserDoc) : UserRecord :=
  if d.modifiedPassword then
    { d.record with
      password := bcryptHash 12 salt d.record.password
      confirmPassword := "" }
  else d.record

/-- Model of `User.create({...req.body})`: build the document, run every
schema validator, then the pre-save hook (a new document has every path
modified), then insert — where the unique index on `email` rejects a
duplicate. On failure the store is unchanged. -/
def userCreate (st : Store) (inp : UserInput) (salt now : Nat) :
    Store × Except AppError UserRecord :=
  let doc := buildDoc st.nextId now inp
  let errs := validateDoc doc
  if errs = [] then
    let r := preSaveHook salt { record := doc, modifiedPassword := true }
    if st.users.any (fun u => u.email = r.email) then
      (st, .error (.duplicateKey "email"))
    else
      ({ users := st.users ++ [r], nextId := st.nextId + 1 }, .ok r)
  else (st, .error (.validation errs))

/-- The static `User.findMyOrders(id)`: look the user up by id (the `orders`
virtual population is an external collaborator and is not modelled); an
unknown id throws `createHttpError(400, ...)`. -/
def findMyOrders (st : Store) (id : Nat) : Except AppError UserRecord :=
  match st.users.find? (fun u => u._id = id) with
  | none => .error (.http 400 s!"No user with this id: {id}")
  | some user => .ok user

/-- The static `User.findByCredentials(email, password)`: look up by email
(400 `Invalid email!` when absent), then verify the password against the
stored hash (400 `Wrong password!` on mismatch). -/
def findByCredentials (st : Store) (email password : String) :
    Except AppError UserRecord :=
  match st.users.find? (fun u => u.email = email) with
  | none => .error (.http 400 "Invalid email!")
  | some user =>
    if bcryptCompare password user.password then .ok user
    else .error (.http 400 "Wrong password!")

/-- The static `User.updatePassword(id, password, newPassword)`: load by id
(note the code throws 400 `Invalid email!` for an unknown id), verify the
current password, then set both password paths to the new plaintext and
`save()` — which validates the modified paths, re-hashes through the pre-save
hook and persists. Every failure happens before the store is mutated. -/
def updatePassword (st : Store) (id : Nat) (password newPassword : String)
    (salt now : Nat) : Store × Except AppError Unit :=
  match st.users.find? (fun u => u._id = id) with
  | none => (st, .error (.http 400 "Invalid email!"))
  | some user =>
    if bcryptCompare password user.password then
      let doc := { user with
                   password := jsTrim newPassword
                   confirmPassword := jsTrim newPassword }
      let errs := optErr "password" (validatePassword doc.password) ++
        optErr "confirmPassword"
          (validateConfirmPassword doc.confirmPassword doc.password)
      if errs = [] then
        let r := { preSaveHook salt { record := doc, modifiedPassword := true } with
                   updatedAt := now }
        ({ st with users := st.users.map (fun u => if u._id = id then r else u) },
         .ok ())
      else (st, .error (.validation errs))
    else (st, .error (.http 400 "Wrong password!"))

/-- The document method `generateToken()`: refuse with a 503 when
`process.env.SECRET_KEY` is unset or empty (JavaScript falsiness of
`!process.env.SECRET_KEY`), otherwise sign the payload `{id}` with the secret
and an expiry of `DAY_EXPIRE` days from now. -/
def generateToken (env : Env) (now userId : Nat) : Except AppError Token :=
  match env.secretKey with
  | none => .error (.http 503 "Cannot create access token!")
  | some s =>
    if s = "" then .error (.http 503 "Cannot create access token!")
    else .ok { payloadId := userId, secret := s, expiresAt := now + env.dayExpire * 86400 }

/-! Serialization (`toJSON` of the schema options). -/

/-- The raw key/value object a document converts to before the `toJSON`
transform runs (the `orders` virtual is an unpopulated external collaborator
and is left out). -/
def userToObject (u : UserRecord) : List (String × String) :=
  [("_id", toString u._id), ("name", u.name), ("email", u.email),
   ("password", u.password), ("confirmPassword", u.confirmPassword),
   ("role", u.role), ("avatar", u.avatar),
   ("createdAt", toString u.createdAt), ("updatedAt", toString u.updatedAt),
   ("__v", "0")]

/-- JavaScript `delete ret[key]` on the plain object. -/
def jsonDelete (obj : List (String × String)) (key : String) :
    List (String × String) :=
  obj.filter (fun kv => kv.1 ≠ key)

/-- The `toJSON` transform of `userSchema`: the serialized representation,
with `password`, `confirmPassword` and `__v` deleted. -/
def userToJSON (u : UserRecord) : List (String × String) :=
  jsonDelete (jsonDelete (jsonDelete (userToObject u) "password") "confirmPassword") "__v"

/-! The session cookie manager and authentication guard live in the
repository's `lib/` module, which is not among the sources; they are modelled
from the specification (§4.4 and the §4.5 authentication guard). -/

/-- Options accepted by the cookie setter; absent options keep their
JavaScript-undefined defaults. `expires` is a timestamp in milliseconds since
the epoch (`new Date(ms)`). -/
structure CookieOptions where
  httpOnly : Bool := false
  sameSite : Option String := none
  expires : Option Int := none
deriving DecidableEq, Repr

/-- One `Set-Cookie` entry recorded on a response: the cookie name, its value
(a token, or `none` for the null value used on sign-out) and its options. -/
structure SetCookie where
  name : String
  value : Option Token
  options : CookieOptions
deriving DecidableEq, Repr

/-- Modelled from the spec: `setCookie` of `lib` (the Session Cookie
Manager's `attach`/`clear`) records the named cookie with the given value and
options on the response — a pure transport concern, no token validation. -/
def setCookie (cookies : List SetCookie) (name : String) (value : Option Token)
    (options : CookieOptions) : List SetCookie :=
  cookies ++ [{ name := name, value := value, options := options }]

/-- The request data the account service consumes: the session token carried
by the request's cookie, if any. -/
structure ApiRequest where
  cookieToken : Option Token
deriving DecidableEq, Repr

/-- The observable outcome of a controller: the response status, the cookies
set on the response, and the user document placed in the body (serialized via
`userToJSON` on the wire), when there is one. -/
structure ControllerResult where
  status : Nat
  cookies : List SetCookie
  user : Option UserRecord
deriving DecidableEq, Repr

/-- Modelled from the spec: `checkAuth` of `lib` (the §4.5 authentication
guard) extracts the session token from the request's cookie, verifies its
signature against the server secret and its expiry against the clock
(signature mismatch and lapsed expiry raise the two well-known `jsonwebtoken`
error names), then resolves the encoded id to a record; a missing token or an
unresolved id is a 401. -/
def checkAuth (env : Env) (st : Store) (req : ApiRequest) (now : Nat) :
    Except AppError UserRecord :=
  match req.cookieToken with
  | none => .error (.http 401 "Unauthorized!")
  | some t =>
    if env.secretKey ≠ some t.secret then .error (.jwtError "JsonWebTokenError")
    else if t.expiresAt ≤ now then .error (.jwtError "TokenExpiredError")
    else
      match st.users.find? (fun u => u._id = t.payloadId) with
      | none => .error (.http 401 "Unauthorized!")
      | some u => .ok u

/-! Controllers (`src/controllers/user.ts`). -/

/-- The `register` controller: `User.create({...req.body})`, then
`generateToken`, then attach the `access-token` cookie with
`httpOnly: true`, `sameSite: 'strict'`, `expires: new Date(EXPIRE_TIME)`, and
respond 201 with the new user. A record created before a later failure stays
in the store. -/
def register (env : Env) (st : Store) (inp : UserInput) (salt now : Nat) :
    Store × Except AppError ControllerResult :=
  match userCreate st inp salt now with
  | (st1, .error e) => (st1, .error e)
  | (st1, .ok newUser) =>
    match generateToken env now newUser._id with
    | .error e => (st1, .error e)
    | .ok tok =>
      (st1, .ok { status := 201
                  cookies := setCookie [] "access-token" (some tok)
                    { httpOnly := true, sameSite := some "strict"
                      expires := some env.expireTime }
                  user := some newUser })

/-- The `signin` controller: reject a falsy email or password with a 400,
then `User.findByCredentials`, then issue and attach the token and respond
201 with the user. -/
def signin (env : Env) (st : Store) (email password : Option String)
    (now : Nat) : Except AppError ControllerResult :=
  if jsTruthy email = false || jsTruthy password = false then
    .error (.http 400 "Please provide email and password!")
  else
    match findByCredentials st (email.getD "") (password.getD "") with
    | .error e => .error e
    | .ok user =>
      match generateToken env now user._id with
      | .error e => .error e
      | .ok tok =>
        .ok { status := 201
              cookies := setCookie [] "access-token" (some tok)
                { httpOnly := true, sameSite := some "strict"
                  expires := some env.expireTime }
              user := some user }

/-- The `logout` controller: `checkAuth`, then set the `access-token` cookie
to the null value with `expires: new Date(0)` (the epoch — an
immediately-past expiry) and respond 200. -/
def logout (env : Env) (st : Store) (req : ApiRequest) (now : Nat) :
    Except AppError ControllerResult :=
  match checkAuth env st req now with
  | .error e => .error e
  | .ok _ =>
    .ok { status := 200
          cookies := setCookie [] "access-token" none { expires := some 0 }
          user := none }

/-- The `getMe` controller: `checkAuth`, then either the request's user or
`User.findMyOrders` when `?orders=true`, responding 200. -/
def getMe (env : Env) (st : Store) (req : ApiRequest) (ordersQuery : Bool)
    (now : Nat) : Except AppError ControllerResult :=
  match checkAuth env st req now with
  | .error e => .error e
  | .ok user =>
    match (if ordersQuery then findMyOrders st user._id else .ok user) with
    | .error e => .error e
    | .ok u => .ok { status := 200, cookies := [], user := some u }

/-- The updatable top-level fields of the request body once `password` and
`newPassword` are destructured away (`...rest`); non-schema keys are dropped
by mongoose strict mode. -/
structure UpdateFields where
  name : Option String := none
  email : Option String := none
  role : Option String := none
  avatar : Option String := none
deriving DecidableEq, Repr

/-- Apply an update payload to a record: setters (trim) run, `timestamps`
refreshes `updatedAt`. No schema validator runs — mongoose
`findByIdAndUpdate` does not run validators unless `runValidators` is passed,
and the call site passes only `{ new: true }`. -/
def applyUpdate (u : UserRecord) (f : UpdateFields) (now : Nat) : UserRecord :=
  { u with
    name := (f.name.map jsTrim).getD u.name
    email := (f.email.map jsTrim).getD u.email
    role := f.role.getD u.role
    avatar := f.avatar.getD u.avatar
    updatedAt := now }

/-- Model of `User.findByIdAndUpdate(id, rest, { new: true })`: `none` result
for an unknown id, otherwise apply the update and persist — the unique index
on `email` still rejects a duplicate, but no schema validator runs. -/
def findByIdAndUpdate (st : Store) (id : Nat) (f : UpdateFields) (now : Nat) :
    Store × Except AppError (Option UserRecord) :=
  match st.users.find? (fun u => u._id = id) with
  | none => (st, .ok none)
  | some user =>
    let r := applyUpdate user f now
    if st.users.any (fun u => u._id ≠ id && u.email = r.email) then
      (st, .error (.duplicateKey "email"))
    else
      ({ st with users := st.users.map (fun u => if u._id = id then r else u) },
       .ok (some r))

/-- The request body of `updateMe`: the destructured `password` /
`newPassword` and the remaining update fields. -/
structure UpdateBody where
  fields : UpdateFields := {}
  password : Option String := none
  newPassword : Option String := none
deriving DecidableEq, Repr

/-- The body of the `updateMe` controller after `checkAuth` has resolved the
requesting user's id: `findByIdAndUpdate` with the non-password fields (404
when the id resolves to nothing), then — only when both `newPassword` and
`password` are truthy — `User.updatePassword`. The field update persists even
when the subsequent password rotation fails. -/
def updateMeAuthed (st : Store) (userId : Nat) (body : UpdateBody)
    (salt now : Nat) : Store × Except AppError ControllerResult :=
  match findByIdAndUpdate st userId body.fields now with
  | (st1, .error e) => (st1, .error e)
  | (st1, .ok none) =>
    (st1, .error (.http 404 s!"No user with this id: {userId}"))
  | (st1, .ok (some updateUser)) =>
    if jsTruthy body.newPassword && jsTruthy body.password then
      match updatePassword st1 userId (body.password.getD "")
          (body.newPassword.getD "") salt now with
      | (st2, .error e) => (st2, .error e)
      | (st2, .ok _) =>
        (st2, .ok { status := 200, cookies := [], user := some updateUser })
    else (st1, .ok { status := 200, cookies := [], user := some updateUser })

/-- The full `updateMe` controller: `checkAuth`, then `updateMeAuthed` with
the authenticated user's id. -/
def updateMe (env : Env) (st : Store) (req : ApiRequest) (body : UpdateBody)
    (salt now : Nat) : Store × Except AppError ControllerResult :=
  match checkAuth env st req now with
  | .error e => (st, .error e)
  | .ok user => updateMeAuthed st user._id body salt now

/-! The error boundary (`src/lib/catchAsync.ts`). -/

/-- A JavaScript error as seen by the boundary wrapper: its `name`, its
`statusCode` (absent on plain errors) and its `message`. -/
structure JsError where
  name : String
  statusCode : Option Nat := none
  message : String := ""
deriving DecidableEq, Repr

/-- Model of the `http-errors` constructor `createHttpError(status, message)`
as used inside `catchAsync` (the constructed error's own name is never one of
the two remapped `jsonwebtoken` names). -/
def createHttpError (status : Nat) (message : String) : JsError :=
  { name := "HttpError", statusCode := some status, message := message }

/-- The error rendering of `catchAsync`: remap the two `jsonwebtoken` error
names to fixed 401 responses, then render
`(error.statusCode || 500, error.message || 'Something went wrong!')` —
JavaScript `||` falls through on a missing or zero status and on an empty
message. Returns the `(status, message)` pair written to the response. -/
def handleError (error : JsError) : Nat × String :=
  let e1 := if error.name = "JsonWebTokenError" then
      createHttpError 401 "Invalid token!" else error
  let e2 := if e1.name = "TokenExpiredError" then
      createHttpError 401 "Token has been expired!" else e1
  let statusCode := match e2.statusCode with
    | some s => if s = 0 then 500 else s
    | none => 500
  let message := if e2.message = "" then "Something went wrong!" else e2.message
  (statusCode, message)

/-- Whether a thrown error is a mongoose `ValidationError`. -/
def AppError.isValidation : AppError → Bool
  | .validation _ => true
  | _ => false

/-- How a thrown error reaches the boundary wrapper as a JavaScript error:
a `createHttpError` error carries its status; a mongoose `ValidationError`
and the MongoDB E11000 duplicate-key `MongoServerError` carry no
`statusCode`, so `catchAsync`'s `|| 500` default applies to them; a
`jsonwebtoken` error carries its distinctive `name`. -/
def appErrorToJsError : AppError → JsError
  | .http s m => { name := "HttpError", statusCode := some s, message := m }
  | .validation errs =>
    { name := "ValidationError", statusCode := none,
      message := "User validation failed: " ++
        String.intercalate ", " (errs.map (fun fm => fm.1 ++ ": " ++ fm.2)) }
  | .duplicateKey f =>
    { name := "MongoServerError", statusCode := none,
      message := "E11000 duplicate key error, index: " ++ f }
  | .jwtError n => { name := n, statusCode := none, message := n }

/-! Concrete fixtures used by witnesses and counterexamples. -/

/-- A well-formed registration body. -/
def sampleInput : UserInput :=
  { name := "John Doe", email := "john@example.com",
    password := "secret1", confirmPassword := "secret1" }

/-- A configured environment: a non-empty secret and a 7-day token life. -/
def sampleEnv : Env :=
  { secretKey := some "k", dayExpire := 7, expireTime := 1700000000000 }

/-- The store before any registration. -/
def emptyStore : Store := { users := [], nextId := 1 }

/-- The record `register`/`User.create` persists for `sampleInput` at time 100
with salt 5: password hashed, confirmation cleared, defaults filled in. -/
def sampleUser : UserRecord :=
  { _id := 1, name := "John Doe", email := "john@example.com",
    password := bcryptHash 12 5 "secret1", confirmPassword := "",
    role := "user", avatar := "/img/user/default.jpg",
    createdAt := 100, updatedAt := 100 }

/-- The store holding exactly `sampleUser`. -/
def sampleStore : Store := { users := [sampleUser], nextId := 2 }

/-- A registration body that passes every field validator but reuses the
sample user's email. -/
def dupEmailInput : UserInput :=
  { name := "Jane Roe", email := "john@example.com",
    password := "secret2", confirmPassword := "secret2" }

/-! Helper lemmas characterizing the store operations. -/

/-- A failing `updatePassword` leaves the store exactly as it was: every
throw happens before the mutation. -/
theorem updatePassword_error_store (st : Store) (id : Nat) (pw npw : String)
    (salt now : Nat) (st' : Store) (e : AppError)
    (h : updatePassword st id pw npw salt now = (st', .error e)) : st' = st := by
  rcases hfind : st.users.find? (fun v => v._id = id) with _ | u
  · simp only [updatePassword, hfind] at h
    rw [Prod.mk.injEq] at h
    exact h.1.symm
  · simp only [updatePassword, hfind] at h
    by_cases hcmp : bcryptCompare pw u.password = true
    · rw [if_pos hcmp] at h
      by_cases herrs : (optErr "password" (validatePassword (jsTrim npw)) ++
          optErr "confirmPassword"
            (validateConfirmPassword (jsTrim npw) (jsTrim npw))) = []
      · rw [if_pos herrs, Prod.mk.injEq] at h
        exact Except.noConfusion h.2
      · rw [if_neg herrs, Prod.mk.injEq] at h
        exact h.1.symm
    · rw [if_neg hcmp, Prod.mk.injEq] at h
      exact h.1.symm

/-- A successful `updatePassword` found the user, verified the supplied
password against the stored hash, and replaced the record with the freshly
hashed rotation. -/
theorem updatePassword_ok_spec (st : Store) (id : Nat) (pw npw : String)
    (salt now : Nat) (st' : Store)
    (h : updatePassword st id pw npw salt now = (st', .ok ())) :
    ∃ u, st.users.find? (fun v => v._id = id) = some u ∧
      bcryptCompare pw u.password = true ∧
      st'.users = st.users.map (fun v => if v._id = id then
        { u with password := bcryptHash 12 salt (jsTrim npw),
                 confirmPassword := "", updatedAt := now }
        else v) := by
  rcases hfind : st.users.find? (fun v => v._id = id) with _ | u
  · simp only [updatePassword, hfind] at h
    rw [Prod.mk.injEq] at h
    exact Except.noConfusion h.2
  · simp only [updatePassword, hfind] at h
    by_cases hcmp : bcryptCompare pw u.password = true
    · rw [if_pos hcmp] at h
      by_cases herrs : (optErr "password" (validatePassword (jsTrim npw)) ++
          optErr "confirmPassword"
            (validateConfirmPassword (jsTrim npw) (jsTrim npw))) = []
      · rw [if_pos herrs, Prod.mk.injEq] at h
        refine ⟨u, hfind, hcmp, ?_⟩
        rw [← h.1]
        rfl
      · rw [if_neg herrs, Prod.mk.injEq] at h
        exact Except.noConfusion h.2
    · rw [if_neg hcmp, Prod.mk.injEq] at h
      exact Except.noConfusion h.2

/-- A document failing schema validation makes `userCreate` fail with exactly
the collected per-field messages, and leaves the store unchanged. -/
theorem userCreate_invalid (st : Store) (inp : UserInput) (salt now : Nat)
    (h : validateDoc (buildDoc st.nextId now inp) ≠ []) :
    userCreate st inp salt now =
      (st, .error (.validation (validateDoc (buildDoc st.nextId now inp)))) := by
  simp only [userCreate]
  rw [if_neg h]

/-- A successful `userCreate` validated the document, found no existing
record with the same email, and appended exactly the hashed record. -/
theorem userCreate_ok_spec (st : Store) (inp : UserInput) (salt now : Nat)
    (st' : Store) (r : UserRecord)
    (h : userCreate st inp salt now = (st', .ok r)) :
    validateDoc (buildDoc st.nextId now inp) = [] ∧
      (∀ u ∈ st.users, u.email ≠ r.email) ∧
      r = preSaveHook salt { record := buildDoc st.nextId now inp,
                             modifiedPassword := true } ∧
      st'.users = st.users ++ [r] := by
  by_cases hval : validateDoc (buildDoc st.nextId now inp) = []
  · simp only [userCreate] at h
    rw [if_pos hval] at h
    by_cases hdup : st.users.any (fun u =>
        u.email = (preSaveHook salt { record := buildDoc st.nextId now inp,
                                      modifiedPassword := true }).email) = true
    · rw [if_pos hdup, Prod.mk.injEq] at h
      exact Except.noConfusion h.2
    · rw [if_neg hdup, Prod.mk.injEq] at h
      have hr : preSaveHook salt { record := buildDoc st.nextId now inp,
                                   modifiedPassword := true } = r := by
        injection h.2
      refine ⟨hval, ?_, hr.symm, ?_⟩
      · intro u hu hem
        rw [← hr] at hem
        simp only [List.any_eq_true, not_exists, not_and] at hdup
        exact absurd (by simpa using hem) (by simpa using hdup u hu)
      · rw [← h.1, hr]
  · rw [userCreate_invalid st inp salt now hval, Prod.mk.injEq] at h
    exact Except.noConfusion h.2

/-- Case analysis of `findByIdAndUpdate`: an unknown id yields `none`, a
duplicate-email update is rejected by the unique index, and otherwise the
update is applied with no schema validator run. -/
theorem findByIdAndUpdate_cases (st : Store) (id : Nat) (f : UpdateFields)
    (now : Nat) :
    (st.users.find? (fun v => v._id = id) = none ∧
      findByIdAndUpdate st id f now = (st, .ok none)) ∨
    (∃ u, st.users.find? (fun v => v._id = id) = some u ∧
      findByIdAndUpdate st id f now = (st, .error (.duplicateKey "email"))) ∨
    (∃ u, st.users.find? (fun v => v._id = id) = some u ∧
      st.users.any (fun v => v._id ≠ id && v.email = (applyUpdate u f now).email)
        = false ∧
      findByIdAndUpdate st id f now =
        ({ st with users := st.users.map (fun v =>
            if v._id = id then applyUpdate u f now else v) },
         .ok (some (applyUpdate u f now)))) := by
  rcases hfind : st.users.find? (fun v => v._id = id) with _ | u
  · exact Or.inl ⟨hfind, by simp only [findByIdAndUpdate, hfind]⟩
  · by_cases hdup : st.users.any (fun v =>
        v._id ≠ id && v.email = (applyUpdate u f now).email) = true
    · refine Or.inr (Or.inl ⟨u, hfind, ?_⟩)
      simp only [findByIdAndUpdate, hfind]
      rw [if_pos hdup]
    · refine Or.inr (Or.inr ⟨u, hfind, by simpa using hdup, ?_⟩)
      simp only [findByIdAndUpdate, hfind]
      rw [if_neg hdup]

/-! Claim theorems. -/

/-- C1: for every user record, the serialized representation produced by the
schema's `toJSON` transform excludes the stored password hash and the
transient plaintext confirmation field; in particular the record returned by
a successful `register` never serializes a password field. -/
theorem serialization_excludes_credentials :
    (∀ u : UserRecord, ∀ kv ∈ userToJSON u,
      kv.1 ≠ "password" ∧ kv.1 ≠ "confirmPassword") ∧
    (∀ env st inp salt now st' res,
      register env st inp salt now = (st', Except.ok res) →
      ∀ u, res.user = some u →
      ∀ kv ∈ userToJSON u, kv.1 ≠ "password" ∧ kv.1 ≠ "confirmPassword") := by
  have h : ∀ u : UserRecord, ∀ kv ∈ userToJSON u,
      kv.1 ≠ "password" ∧ kv.1 ≠ "confirmPassword" := by
    intro u kv hkv
    have hj : userToJSON u =
        [("_id", toString u._id), ("name", u.name), ("email", u.email),
         ("role", u.role), ("avatar", u.avatar),
         ("createdAt", toString u.createdAt), ("updatedAt", toString u.updatedAt)] := rfl
    rw [hj] at hkv
    simp only [List.mem_cons, List.not_mem_nil, or_false] at hkv
    rcases hkv with rfl | rfl | rfl | rfl | rfl | rfl | rfl <;>
      exact ⟨by simp, by simp⟩
  exact ⟨h, fun _ _ _ _ _ _ _ _ u _ => h u⟩

/-- Witness for C1: the concrete sanitized record of a successful
registration carries neither credential field. -/
theorem serialization_excludes_credentials_witness :
    ("password", bcryptHash 12 5 "secret1") ∉ userToJSON sampleUser ∧
    ("confirmPassword", "") ∉ userToJSON sampleUser := by
  constructor
  · intro hmem
    exact (serialization_excludes_credentials.1 sampleUser _ hmem).1 rfl
  · intro hmem
    exact (serialization_excludes_credentials.1 sampleUser _ hmem).2 rfl

/-- C5: `generateToken` signs exactly the payload `{id: userId}` with the
server-held secret and an absolute expiry of now plus `DAY_EXPIRE` days, and
refuses with a 503 configuration error, producing no token, when the secret
is missing or empty. -/
theorem generateToken_spec :
    (∀ env : Env, ∀ now userId : Nat, env.secretKey = none →
      generateToken env now userId =
        .error (.http 503 "Cannot create access token!")) ∧
    (∀ env : Env, ∀ now userId : Nat, env.secretKey = some "" →
      generateToken env now userId =
        .error (.http 503 "Cannot create access token!")) ∧
    (∀ env : Env, ∀ now userId : Nat, ∀ s : String,
      env.secretKey = some s → s ≠ "" →
      generateToken env now userId =
        .ok { payloadId := userId, secret := s
              expiresAt := now + env.dayExpire * 86400 }) := by
  refine ⟨fun env now userId h => ?_, fun env now userId h => ?_,
    fun env now userId s h hs => ?_⟩
  · simp [generateToken, h]
  · simp [generateToken, h]
  · simp [generateToken, h, hs]

/-- Witness for C5: a missing secret is refused with the 503; the sample
environment signs the expected payload and expiry. -/
theorem generateToken_spec_witness :
    generateToken { secretKey := none, dayExpire := 7, expireTime := 0 } 100 1 =
      .error (.http 503 "Cannot create access token!") ∧
    generateToken sampleEnv 100 1 =
      .ok { payloadId := 1, secret := "k", expiresAt := 100 + 7 * 86400 } :=
  ⟨generateToken_spec.1 _ 100 1 rfl,
   generateToken_spec.2.2 sampleEnv 100 1 "k" rfl (by decide)⟩

/-- C7: the boundary wrapper renders an error named `JsonWebTokenError` as
401 `Invalid token!`, an error named `TokenExpiredError` as 401
`Token has been expired!`, and every other error at its own status code and
message, defaulting to 500 and `Something went wrong!` when these are
unset. -/
theorem catchAsync_error_mapping :
    (∀ e : JsError, e.name = "JsonWebTokenError" →
      handleError e = (401, "Invalid token!")) ∧
    (∀ e : JsError, e.name = "TokenExpiredError" →
      handleError e = (401, "Token has been expired!")) ∧
    (∀ e : JsError, ∀ s : Nat, e.name ≠ "JsonWebTokenError" →
      e.name ≠ "TokenExpiredError" → e.statusCode = some s → s ≠ 0 →
      e.message ≠ "" → handleError e = (s, e.message)) ∧
    (∀ e : JsError, e.name ≠ "JsonWebTokenError" →
      e.name ≠ "TokenExpiredError" → e.statusCode = none → e.message = "" →
      handleError e = (500, "Something went wrong!")) := by
  refine ⟨fun e h => ?_, fun e h => ?_,
    fun e s h1 h2 h3 h4 h5 => ?_, fun e h1 h2 h3 h4 => ?_⟩
  · simp [handleError, h, createHttpError]
  · simp [handleError, h, createHttpError]
  · simp [handleError, h1, h2, h3, h4, h5]
  · simp [handleError, h1, h2, h3, h4]

/-- Counterexample for C2: the claim that a failed operation leaves no
partial-failure state behind fails on the code. An `updateMe` whose password
rotation is rejected for a wrong current password still persists the profile
fields applied by `findByIdAndUpdate` before the rotation check, so the
stored state is not left unchanged; and a registration that fails at token
issuance (missing `SECRET_KEY`) has already created the record. -/
theorem failed_ops_partial_state_counterexample :
    (updateMeAuthed sampleStore 1
        { fields := { name := some "New Name" }, password := some "wrongpw",
          newPassword := some "newsecret" } 7 200).2 =
      Except.error (AppError.http 400 "Wrong password!") ∧
    (updateMeAuthed sampleStore 1
        { fields := { name := some "New Name" }, password := some "wrongpw",
          newPassword := some "newsecret" } 7 200).1.users ≠ sampleStore.users ∧
    (register { secretKey := none, dayExpire := 7, expireTime := 0 } emptyStore
        sampleInput 5 100).2 =
      Except.error (AppError.http 503 "Cannot create access token!") ∧
    (register { secretKey := none, dayExpire := 7, expireTime := 0 } emptyStore
        sampleInput 5 100).1.users.length = 1 := by
  refine ⟨rfl, ?_, rfl, rfl⟩
  decide

/-- C2 (amended): a registration that fails store validation creates no
record (validation runs before insert); a password rotation whose current
password does not verify fails with `Wrong password!`, and any failing
rotation leaves the store — in particular the prior hash — unchanged, while
a rotation only ever succeeds after the supplied password verified against
the stored hash. (A registration failing at token issuance, and profile
fields applied by the same `updateMe` call before a failing rotation, do
persist: see the counterexample.) -/
theorem failed_ops_state_amended :
    (∀ st : Store, ∀ inp : UserInput, ∀ salt now : Nat,
      validateDoc (buildDoc st.nextId now inp) ≠ [] →
      userCreate st inp salt now =
        (st, .error (.validation (validateDoc (buildDoc st.nextId now inp))))) ∧
    (∀ st : Store, ∀ id : Nat, ∀ pw npw : String, ∀ salt now : Nat,
      ∀ u : UserRecord, st.users.find? (fun v => v._id = id) = some u →
      bcryptCompare pw u.password = false →
      updatePassword st id pw npw salt now =
        (st, .error (.http 400 "Wrong password!"))) ∧
    (∀ st : Store, ∀ id : Nat, ∀ pw npw : String, ∀ salt now : Nat,
      ∀ st' : Store, ∀ e : AppError,
      updatePassword st id pw npw salt now = (st', .error e) → st' = st) ∧
    (∀ st : Store, ∀ id : Nat, ∀ pw npw : String, ∀ salt now : Nat, ∀ st' : Store,
      updatePassword st id pw npw salt now = (st', .ok ()) →
      ∃ u, st.users.find? (fun v => v._id = id) = some u ∧
        bcryptCompare pw u.password = true) := by
  refine ⟨fun st inp salt now h => userCreate_invalid st inp salt now h, ?_,
    fun st id pw npw salt now st' e h =>
      updatePassword_error_store st id pw npw salt now st' e h, ?_⟩
  · intro st id pw npw salt now u hfind hcmp
    simp only [updatePassword, hfind]
    rw [if_neg (by simp [hcmp])]
  · intro st id pw npw salt now st' h
    obtain ⟨u, hfind, hcmp, _⟩ :=
      updatePassword_ok_spec st id pw npw salt now st' h
    exact ⟨u, hfind, hcmp⟩

/-- A registration body whose name is a single word. -/
def badNameInput : UserInput :=
  { name := "X", email := "jane@example.com",
    password := "secret1", confirmPassword := "secret1" }

/-- Witness for C2 (amended): the one-word name is rejected with its
per-field message and no record is created; the wrong current password is
rejected and the sample store is returned untouched. -/
theorem failed_ops_state_witness :
    userCreate emptyStore badNameInput 5 100 =
      (emptyStore,
       .error (.validation [("name", "Name contains at least 2 words!")])) ∧
    updatePassword sampleStore 1 "wrongpw" "newsecret" 7 200 =
      (sampleStore, .error (.http 400 "Wrong password!")) :=
  ⟨failed_ops_state_amended.1 emptyStore badNameInput 5 100 (by decide),
   failed_ops_state_amended.2.1 sampleStore 1 "wrongpw" "newsecret" 7 200
     sampleUser rfl rfl⟩

/-- C3: `signin` fails 400 `Please provide email and password!` when either
credential is absent (falsy), 400 `Invalid email!` when no record has the
email, 400 `Wrong password!` when the record exists but the password does not
verify, and otherwise (with a configured signing secret) succeeds at 201
returning the matching user's record. -/
theorem signin_outcomes :
    (∀ env : Env, ∀ st : Store, ∀ email pw : Option String, ∀ now : Nat,
      (jsTruthy email = false ∨ jsTruthy pw = false) →
      signin env st email pw now =
        .error (.http 400 "Please provide email and password!")) ∧
    (∀ env : Env, ∀ st : Store, ∀ e p : String, ∀ now : Nat,
      e ≠ "" → p ≠ "" → st.users.find? (fun v => v.email = e) = none →
      signin env st (some e) (some p) now =
        .error (.http 400 "Invalid email!")) ∧
    (∀ env : Env, ∀ st : Store, ∀ e p : String, ∀ now : Nat, ∀ u : UserRecord,
      e ≠ "" → p ≠ "" → st.users.find? (fun v => v.email = e) = some u →
      bcryptCompare p u.password = false →
      signin env st (some e) (some p) now =
        .error (.http 400 "Wrong password!")) ∧
    (∀ env : Env, ∀ st : Store, ∀ e p : String, ∀ now : Nat, ∀ u : UserRecord,
      ∀ s : String,
      e ≠ "" → p ≠ "" → st.users.find? (fun v => v.email = e) = some u →
      bcryptCompare p u.password = true →
      env.secretKey = some s → s ≠ "" →
      signin env st (some e) (some p) now =
        .ok { status := 201,
              cookies := setCookie [] "access-token"
                (some { payloadId := u._id, secret := s,
                        expiresAt := now + env.dayExpire * 86400 })
                { httpOnly := true, sameSite := some "strict",
                  expires := some env.expireTime },
              user := some u }) := by
  refine ⟨?_, ?_, ?_, ?_⟩
  · intro env st email pw now h
    rcases h with h | h <;> simp [signin, h]
  · intro env st e p now he hp hfind
    simp [signin, jsTruthy, he, hp, findByCredentials, hfind]
  · intro env st e p now u he hp hfind hcmp
    simp [signin, jsTruthy, he, hp, findByCredentials, hfind, hcmp]
  · intro env st e p now u s he hp hfind hcmp hsk hs
    simp [signin, jsTruthy, he, hp, findByCredentials, hfind, hcmp,
      generateToken, hsk, hs]

/-- Witness for C3: the four outcomes at concrete inputs over the sample
store. -/
theorem signin_outcomes_witness :
    signin sampleEnv sampleStore none (some "secret1") 100 =
      .error (.http 400 "Please provide email and password!") ∧
    signin sampleEnv sampleStore (some "jane@example.com") (some "secret1") 100 =
      .error (.http 400 "Invalid email!") ∧
    signin sampleEnv sampleStore (some "john@example.com") (some "wrongpw") 100 =
      .error (.http 400 "Wrong password!") ∧
    signin sampleEnv sampleStore (some "john@example.com") (some "secret1") 100 =
      .ok { status := 201,
            cookies := setCookie [] "access-token"
              (some { payloadId := 1, secret := "k",
                      expiresAt := 100 + 7 * 86400 })
              { httpOnly := true, sameSite := some "strict",
                expires := some 1700000000000 },
            user := some sampleUser } :=
  ⟨signin_outcomes.1 sampleEnv sampleStore none (some "secret1") 100
     (Or.inl rfl),
   signin_outcomes.2.1 sampleEnv sampleStore "jane@example.com" "secret1" 100
     (by decide) (by decide) rfl,
   signin_outcomes.2.2.1 sampleEnv sampleStore "john@example.com" "wrongpw" 100
     sampleUser (by decide) (by decide) rfl rfl,
   signin_outcomes.2.2.2 sampleEnv sampleStore "john@example.com" "secret1" 100
     sampleUser "k" (by decide) (by decide) rfl rfl rfl (by decide)⟩

/-- C6: a record's password is re-hashed — at cost factor 12 under the salt
drawn for this save — exactly when the plaintext password path was modified:
the pre-save hook hashes a modified password and leaves an unmodified one
untouched, and a successful `updatePassword` stores the fresh hash of the new
plaintext. -/
theorem password_rehash_iff_modified :
    (∀ salt : Nat, ∀ d : UserDoc, d.modifiedPassword = true →
      (preSaveHook salt d).password = bcryptHash 12 salt d.record.password) ∧
    (∀ salt : Nat, ∀ d : UserDoc, d.modifiedPassword = false →
      (preSaveHook salt d).password = d.record.password) ∧
    (∀ st : Store, ∀ id : Nat, ∀ pw npw : String, ∀ salt now : Nat, ∀ st' : Store,
      updatePassword st id pw npw salt now = (st', .ok ()) →
      ∀ u' ∈ st'.users, u'._id = id →
        u'.password = bcryptHash 12 salt (jsTrim npw)) := by
  refine ⟨fun salt d h => by simp [preSaveHook, h],
    fun salt d h => by simp [preSaveHook, h], ?_⟩
  intro st id pw npw salt now st' h u' hu' hid
  obtain ⟨u, hfind, hcmp, husers⟩ :=
    updatePassword_ok_spec st id pw npw salt now st' h
  rw [husers] at hu'
  obtain ⟨v, hv, rfl⟩ := List.mem_map.mp hu'
  by_cases hvid : v._id = id
  · rw [if_pos hvid]
  · rw [if_neg hvid] at hid ⊢
    exact absurd hid hvid

/-- Witness for C6: the hook hashes the sample registration document's
password and leaves the already-hashed sample record alone when the password
path is unmodified. -/
theorem password_rehash_witness :
    (preSaveHook 5 { record := buildDoc 1 100 sampleInput,
                     modifiedPassword := true }).password
        = bcryptHash 12 5 "secret1" ∧
    (preSaveHook 5 { record := sampleUser,
                     modifiedPassword := false }).password
        = sampleUser.password :=
  ⟨password_rehash_iff_modified.1 5 _ rfl,
   password_rehash_iff_modified.2.1 5 _ rfl⟩

/-- C10: whenever a record is saved with a modified password (registration or
rotation), the stored `confirmPassword` is reset to the empty string before
the record is persisted. -/
theorem confirmPassword_cleared_on_save :
    (∀ salt : Nat, ∀ d : UserDoc, d.modifiedPassword = true →
      (preSaveHook salt d).confirmPassword = "") ∧
    (∀ st : Store, ∀ inp : UserInput, ∀ salt now : Nat, ∀ st' : Store,
      ∀ r : UserRecord, userCreate st inp salt now = (st', .ok r) →
      r.confirmPassword = "" ∧ r ∈ st'.users) ∧
    (∀ st : Store, ∀ id : Nat, ∀ pw npw : String, ∀ salt now : Nat, ∀ st' : Store,
      updatePassword st id pw npw salt now = (st', .ok ()) →
      ∀ u' ∈ st'.users, u'._id = id → u'.confirmPassword = "") := by
  refine ⟨fun salt d h => by simp [preSaveHook, h], ?_, ?_⟩
  · intro st inp salt now st' r h
    obtain ⟨hval, hun, hr, husers⟩ := userCreate_ok_spec st inp salt now st' r h
    refine ⟨by rw [hr]; rfl, ?_⟩
    rw [husers]
    exact List.mem_append_right _ (List.mem_singleton.mpr rfl)
  · intro st id pw npw salt now st' h u' hu' hid
    obtain ⟨u, hfind, hcmp, husers⟩ :=
      updatePassword_ok_spec st id pw npw salt now st' h
    rw [husers] at hu'
    obtain ⟨v, hv, rfl⟩ := List.mem_map.mp hu'
    by_cases hvid : v._id = id
    · rw [if_pos hvid]
    · rw [if_neg hvid] at hid ⊢
      exact absurd hid hvid

/-- Witness for C10: the record persisted by the sample registration carries
an empty confirmation field. -/
theorem confirmPassword_cleared_witness :
    sampleUser.confirmPassword = "" ∧ sampleUser ∈ sampleStore.users :=
  confirmPassword_cleared_on_save.2.1 emptyStore sampleInput 5 100
    sampleStore sampleUser rfl

/-- Counterexample for C4: two concrete writes falsify the claim that every
write validates the schema rules with any violation failing as a per-field
`ValidationError`. Updating the sample user's name to the single word `X`
succeeds and persists a record violating the two-word rule — the
`findByIdAndUpdate` call site passes only `{ new: true }` and mongoose runs
no schema validator on update queries by default. And creating a second user
with the sample user's email is rejected by the MongoDB unique index with an
E11000 `MongoServerError`, which is not a `ValidationError` and, carrying no
`statusCode`, is rendered at 500 by the boundary wrapper rather than as a
400-class per-field validation failure. -/
theorem update_bypasses_validation_counterexample :
    findByIdAndUpdate sampleStore 1 { name := some "X" } 200 =
      ({ users := [{ sampleUser with name := "X", updatedAt := 200 }],
         nextId := 2 },
       .ok (some { sampleUser with name := "X", updatedAt := 200 })) ∧
    validateName "X" = some "Name contains at least 2 words!" ∧
    { sampleUser with name := "X", updatedAt := 200 } ∈
      (findByIdAndUpdate sampleStore 1 { name := some "X" } 200).1.users ∧
    userCreate sampleStore dupEmailInput 6 300 =
      (sampleStore, .error (.duplicateKey "email")) ∧
    AppError.isValidation (AppError.duplicateKey "email") = false ∧
    handleError (appErrorToJsError (AppError.duplicateKey "email")) =
      (500, "E11000 duplicate key error, index: email") :=
  ⟨rfl, rfl, by decide, rfl, rfl, rfl⟩

/-- C4 (amended): `create` validates name shape, email shape, password
minimum length and role membership, fails with the per-field
`ValidationError` on any such violation, and never inserts a record whose
email duplicates an existing one — but a duplicate-email create is rejected
by the MongoDB unique index with an E11000 `MongoServerError`, not a
`ValidationError`; it carries no per-field message and no `statusCode`, so
the boundary renders it at 500. `updateById` (`findByIdAndUpdate`) never
raises a schema `ValidationError` — mongoose runs no validator on update
queries by default, so only the unique email index still constrains it (see
the counterexample for a persisted shape violation). -/
theorem write_validation_amended :
    (∀ st : Store, ∀ inp : UserInput, ∀ salt now : Nat, ∀ st' : Store,
      ∀ r : UserRecord, userCreate st inp salt now = (st', .ok r) →
      validateDoc (buildDoc st.nextId now inp) = [] ∧
      ∀ u ∈ st.users, u.email ≠ r.email) ∧
    (∀ st : Store, ∀ inp : UserInput, ∀ salt now : Nat,
      validateDoc (buildDoc st.nextId now inp) ≠ [] →
      userCreate st inp salt now =
        (st, .error (.validation (validateDoc (buildDoc st.nextId now inp))))) ∧
    (∀ st : Store, ∀ inp : UserInput, ∀ salt now : Nat,
      validateDoc (buildDoc st.nextId now inp) = [] →
      st.users.any (fun u => u.email =
        (preSaveHook salt { record := buildDoc st.nextId now inp,
                            modifiedPassword := true }).email) = true →
      userCreate st inp salt now = (st, .error (.duplicateKey "email")) ∧
      AppError.isValidation (AppError.duplicateKey "email") = false ∧
      (handleError (appErrorToJsError (AppError.duplicateKey "email"))).1
        = 500) ∧
    (∀ st : Store, ∀ id : Nat, ∀ f : UpdateFields, ∀ now : Nat, ∀ st' : Store,
      ∀ x : Except AppError (Option UserRecord),
      findByIdAndUpdate st id f now = (st', x) →
      ∀ es : List (String × String), x ≠ .error (.validation es)) ∧
    (∀ st : Store, ∀ id : Nat, ∀ f : UpdateFields, ∀ now : Nat, ∀ st' : Store,
      ∀ r : UserRecord, findByIdAndUpdate st id f now = (st', .ok (some r)) →
      ∀ u ∈ st.users, u._id ≠ id → u.email ≠ r.email) := by
  refine ⟨?_, fun st inp salt now h => userCreate_invalid st inp salt now h,
    ?_, ?_, ?_⟩
  · intro st inp salt now st' r h
    obtain ⟨hval, hun, -, -⟩ := userCreate_ok_spec st inp salt now st' r h
    exact ⟨hval, hun⟩
  · intro st inp salt now hval hdup
    refine ⟨?_, rfl, rfl⟩
    simp only [userCreate]
    rw [if_pos hval, if_pos hdup]
  · intro st id f now st' x h es
    rcases findByIdAndUpdate_cases st id f now with ⟨-, heq⟩ | ⟨u, -, heq⟩ |
        ⟨u, -, -, heq⟩ <;>
      rw [heq, Prod.mk.injEq] at h <;> rw [← h.2] <;> simp
  · intro st id f now st' r h u hu hid
    rcases findByIdAndUpdate_cases st id f now with ⟨-, heq⟩ | ⟨w, -, heq⟩ |
        ⟨w, hfindw, hany, heq⟩ <;> rw [heq, Prod.mk.injEq] at h
    · exact absurd h.2 (by simp)
    · exact absurd h.2 (by simp)
    · have hr : applyUpdate w f now = r := by
        have h2 := h.2
        injection h2 with h3
        injection h3
      intro hem
      rw [← hr] at hem
      have hfalse := List.any_eq_false.mp hany u hu
      simp only [Bool.and_eq_true, decide_eq_true_eq, not_and, ne_eq] at hfalse
      exact hfalse hid hem

/-- Witness for C4 (amended): the sample registration validated and
respected uniqueness, and the valid-but-duplicate registration is rejected
with the duplicate-key error. -/
theorem write_validation_witness :
    validateDoc (buildDoc emptyStore.nextId 100 sampleInput) = [] ∧
    userCreate sampleStore dupEmailInput 6 300 =
      (sampleStore, .error (.duplicateKey "email")) :=
  ⟨(write_validation_amended.1 emptyStore sampleInput 5 100 sampleStore
      sampleUser rfl).1,
   (write_validation_amended.2.2.1 sampleStore dupEmailInput 6 300
      (by decide) (by decide)).1⟩

/-- Counterexample for C8: the claim that every by-id lookup fails with a
404 `NotFoundError` on an unknown id fails on the code: `findMyOrders`
throws `createHttpError(400, ...)`, status 400, not 404. -/
theorem findMyOrders_status_counterexample :
    findMyOrders emptyStore 1 =
      .error (.http 400 "No user with this id: 1") ∧ (400 : Nat) ≠ 404 :=
  ⟨rfl, by decide⟩

/-- C8 (amended): on an id that resolves to no record, the profile update
(`updateMe`'s `findByIdAndUpdate` branch) fails with a 404; the orders
lookup (`findMyOrders`) fails with a 400 carrying the same message shape;
and the password rotation (`updatePassword`) fails with a 400 carrying the
`Invalid email!` message — only the profile update uses 404. -/
theorem unknown_id_failures :
    (∀ st : Store, ∀ id : Nat, ∀ body : UpdateBody, ∀ salt now : Nat,
      st.users.find? (fun v => v._id = id) = none →
      updateMeAuthed st id body salt now =
        (st, .error (.http 404 s!"No user with this id: {id}"))) ∧
    (∀ st : Store, ∀ id : Nat,
      st.users.find? (fun v => v._id = id) = none →
      findMyOrders st id =
        .error (.http 400 s!"No user with this id: {id}")) ∧
    (∀ st : Store, ∀ id : Nat, ∀ pw npw : String, ∀ salt now : Nat,
      st.users.find? (fun v => v._id = id) = none →
      updatePassword st id pw npw salt now =
        (st, .error (.http 400 "Invalid email!"))) := by
  refine ⟨?_, ?_, ?_⟩
  · intro st id body salt now hfind
    simp only [updateMeAuthed, findByIdAndUpdate, hfind]
  · intro st id hfind
    simp only [findMyOrders, hfind]
  · intro st id pw npw salt now hfind
    simp only [updatePassword, hfind]

/-- Witness for C8 (amended): the three failures over the empty store. -/
theorem unknown_id_failures_witness :
    updateMeAuthed emptyStore 1 {} 5 100 =
      (emptyStore, .error (.http 404 "No user with this id: 1")) ∧
    findMyOrders emptyStore 2 =
      .error (.http 400 "No user with this id: 2") ∧
    updatePassword emptyStore 3 "pw" "npw" 5 100 =
      (emptyStore, .error (.http 400 "Invalid email!")) :=
  ⟨unknown_id_failures.1 emptyStore 1 {} 5 100 rfl,
   unknown_id_failures.2.1 emptyStore 2 rfl,
   unknown_id_failures.2.2 emptyStore 3 "pw" "npw" 5 100 rfl⟩

/-- C9: every successful `register` and `signin` responds 201 and attaches
exactly one session cookie with `httpOnly = true`, `sameSite = strict` and
an expiry timestamp; `logout` responds 200 and sets the same cookie with no
value and the epoch (an immediately-past instant) as expiry. -/
theorem session_cookie_lifecycle :
    (∀ env : Env, ∀ st : Store, ∀ inp : UserInput, ∀ salt now : Nat,
      ∀ st' : Store, ∀ res : ControllerResult,
      register env st inp salt now = (st', .ok res) →
      res.status = 201 ∧ ∃ c, res.cookies = [c] ∧ c.name = "access-token" ∧
        c.value.isSome = true ∧ c.options.httpOnly = true ∧
        c.options.sameSite = some "strict" ∧ c.options.expires.isSome = true) ∧
    (∀ env : Env, ∀ st : Store, ∀ email pw : Option String, ∀ now : Nat,
      ∀ res : ControllerResult,
      signin env st email pw now = .ok res →
      res.status = 201 ∧ ∃ c, res.cookies = [c] ∧ c.name = "access-token" ∧
        c.value.isSome = true ∧ c.options.httpOnly = true ∧
        c.options.sameSite = some "strict" ∧ c.options.expires.isSome = true) ∧
    (∀ env : Env, ∀ st : Store, ∀ req : ApiRequest, ∀ now : Nat,
      ∀ res : ControllerResult,
      logout env st req now = .ok res →
      res.status = 200 ∧
      res.cookies = [{ name := "access-token", value := none,
                       options := { expires := some 0 } }]) := by
  refine ⟨?_, ?_, ?_⟩
  · intro env st inp salt now st' res h
    simp only [register] at h
    split at h
    · rw [Prod.mk.injEq] at h
      exact Except.noConfusion h.2
    · split at h
      · rw [Prod.mk.injEq] at h
        exact Except.noConfusion h.2
      · rw [Prod.mk.injEq] at h
        have h2 := h.2
        injection h2 with h3
        rw [← h3]
        exact ⟨rfl, _, rfl, rfl, rfl, rfl, rfl, rfl⟩
  · intro env st email pw now res h
    simp only [signin] at h
    split at h
    · exact Except.noConfusion h
    · split at h
      · exact Except.noConfusion h
      · split at h
        · exact Except.noConfusion h
        · injection h with h3
          rw [← h3]
          exact ⟨rfl, _, rfl, rfl, rfl, rfl, rfl, rfl⟩
  · intro env st req now res h
    simp only [logout] at h
    split at h
    · exact Except.noConfusion h
    · injection h with h3
      rw [← h3]
      exact ⟨rfl, rfl⟩

/-- The result of the sample `register` (and of the matching sample
`signin`). -/
def registerOkRes : ControllerResult :=
  { status := 201,
    cookies := [{ name := "access-token",
                  value := some { payloadId := 1, secret := "k",
                                  expiresAt := 100 + 7 * 86400 },
                  options := { httpOnly := true, sameSite := some "strict",
                               expires := some 1700000000000 } }],
    user := some sampleUser }

/-- The result of the sample `logout`. -/
def logoutOkRes : ControllerResult :=
  { status := 200,
    cookies := [{ name := "access-token", value := none,
                  options := { expires := some 0 } }],
    user := none }

/-- A request carrying a valid, unexpired session token for the sample
user. -/
def sampleReq : ApiRequest :=
  { cookieToken := some { payloadId := 1, secret := "k", expiresAt := 700000 } }

/-- Witness for C9: the concrete register, sign-in and sign-out responses
over the sample store. -/
theorem session_cookie_lifecycle_witness :
    registerOkRes.status = 201 ∧ registerOkRes.cookies.length = 1 ∧
    logoutOkRes.status = 200 ∧
    logoutOkRes.cookies = [{ name := "access-token", value := none,
                             options := { expires := some 0 } }] := by
  have hr := session_cookie_lifecycle.1 sampleEnv emptyStore sampleInput 5 100
    sampleStore registerOkRes rfl
  have hs := session_cookie_lifecycle.2.1 sampleEnv sampleStore
    (some "john@example.com") (some "secret1") 100 registerOkRes rfl
  have hl := session_cookie_lifecycle.2.2 sampleEnv sampleStore sampleReq 100
    logoutOkRes rfl
  obtain ⟨c, hc, -⟩ := hs.2
  exact ⟨hr.1, by rw [hc]; rfl, hl.1, hl.2⟩

/-- Witness for C7: the four renderings at concrete errors. -/
theorem catchAsync_error_mapping_witness :
    handleError { name := "JsonWebTokenError" } = (401, "Invalid token!") ∧
    handleError { name := "TokenExpiredError" } =
      (401, "Token has been expired!") ∧
    handleError { name := "Error", statusCode := some 418, message := "teapot" } =
      (418, "teapot") ∧
    handleError { name := "Error" } = (500, "Something went wrong!") :=
  ⟨catchAsync_error_mapping.1 _ rfl,
   catchAsync_error_mapping.2.1 _ rfl,
   catchAsync_error_mapping.2.2.1 _ 418 (by decide) (by decide) rfl
     (by decide) (by decide),
   catchAsync_error_mapping.2.2.2 _ (by decide) (by decide) rfl rfl⟩

end NextEcommerce
